import Mathlib

/-!
Shallow embedding of the hilan-automation repository (hilan_filler.py and
hilan_interactive.py) and proofs about the frozen claims.

The embedding translates the pure decision logic of the two Python files:
calendar/workday computation, CLI day-range parsing and validation, the
grid-row scan logic of `fill_all_hours` (pass 1, the rescan loop, and
pass 2), the interactive shell's `build_command`, and the exit-code logic
of `main`.  Browser effects (Playwright calls) are modelled as abstract
actions; the page is a list of rows and the server's response to an action
is a function parameter.
-/

namespace Hilan

/-! ## Calendar embedding (hilan_filler.py, lines 376-417)

Python's `datetime.date` uses the proleptic Gregorian calendar with
`date(1,1,1).toordinal() = 1` (a Monday) and `weekday()` returning
Monday = 0 .. Sunday = 6.  `calendar.monthrange(year, month)[1]` is the
number of days in the month. -/

/-- A calendar date as used by `datetime.date` (proleptic Gregorian). -/
structure PyDate where
  year : Nat
  month : Nat
  day : Nat
deriving DecidableEq, Repr

/-- Gregorian leap-year rule, as in `calendar.isleap`. -/
def isLeapYear (y : Nat) : Bool :=
  y % 4 == 0 && (y % 100 != 0 || y % 400 == 0)

/-- Number of days in a month, as returned by `calendar.monthrange(year, month)[1]`. -/
def daysInMonth (y m : Nat) : Nat :=
  if m == 2 then (if isLeapYear y then 29 else 28)
  else if m == 4 || m == 6 || m == 9 || m == 11 then 30
  else 31

/-- Days in all years before year `y` (proleptic Gregorian), as in
`datetime.date.toordinal`. -/
def daysBeforeYear (y : Nat) : Nat :=
  365 * (y - 1) + (y - 1) / 4 - (y - 1) / 100 + (y - 1) / 400

/-- Days in the months of year `y` strictly before month `m`. -/
def daysBeforeMonth (y m : Nat) : Nat :=
  ((List.range (m - 1)).map (fun i => daysInMonth y (i + 1))).sum

/-- Python's `date.toordinal()`: day count since 0001-01-01 (which is day 1). -/
def toOrdinal (p : PyDate) : Nat :=
  daysBeforeYear p.year + daysBeforeMonth p.year p.month + p.day

/-- Python's `date.weekday()`: Monday = 0, ..., Sunday = 6.
0001-01-01 (ordinal 1) was a Monday. -/
def pyWeekday (y m d : Nat) : Nat :=
  (toOrdinal ⟨y, m, d⟩ + 6) % 7

/-- Python's date comparison `a > b` (for valid dates this agrees with
ordinal comparison). -/
def pyDateGt (a b : PyDate) : Bool :=
  toOrdinal b < toOrdinal a

/-- The workday test of `get_workdays`: `weekday in (6, 0, 1, 2, 3)`
(Sunday through Thursday). -/
def isSunToThu (y m d : Nat) : Bool :=
  pyWeekday y m d == 6 || pyWeekday y m d == 0 || pyWeekday y m d == 1 ||
  pyWeekday y m d == 2 || pyWeekday y m d == 3

/-- Embedding of `get_workdays(year, month)` (hilan_filler.py lines 382-417).
The Israeli holiday set comes from the external `holidays` library
(`get_israeli_holidays`); it is passed here as the parameter `hol`.
The source loops over `day_num in range(1, num_days + 1)`, skips days whose
weekday is not Sunday..Thursday, skips days in the holiday set, and appends
the rest in order. -/
def get_workdays (hol : List PyDate) (year month : Nat) : List PyDate :=
  ((List.range' 1 (daysInMonth year month)).filter
    (fun d => isSunToThu year month d && !(hol.contains ⟨year, month, d⟩))).map
    (fun d => ⟨year, month, d⟩)

/-! ## Day-range parsing (hilan_filler.py lines 283-342, hilan_interactive.py
lines 212-225)

The same loop appears four times in the source: once in
`hilan_interactive.parse_day_ranges` and three times in `parse_args` (for
`--present-dates`, `--sick-days` and `--vacation`); all four bodies are
textually identical.  A failing `int()` raises `ValueError`, which the CLI
turns into a parse error; this is modelled by `Option` (`none` = error).
Day tokens are nonnegative decimal numerals, modelled with `String.toNat?`. -/

/-- Contiguous-sublist test on lists (an empty needle always occurs). -/
def listInfixOf (needle : List Char) : List Char → Bool
  | [] => needle.isEmpty
  | c :: t => needle.isPrefixOf (c :: t) || listInfixOf needle t

/-- Python's substring test `needle in hay`. -/
def pyIn (needle hay : String) : Bool :=
  listInfixOf needle.data hay.data

/-- Splitting a character list on a non-empty separator; the fuel bounds
the recursion and at every call site equals the list length plus one, which
suffices because each step consumes at least one character. -/
def splitListAux (sep : List Char) : Nat → List Char → List Char → List (List Char)
  | 0, l, acc => [acc.reverse ++ l]
  | _ + 1, [], acc => [acc.reverse]
  | fuel + 1, c :: rest, acc =>
    if sep.isPrefixOf (c :: rest) then
      acc.reverse :: splitListAux sep fuel ((c :: rest).drop sep.length) []
    else
      splitListAux sep fuel rest (c :: acc)

/-- Python's `s.split(sep)` for a non-empty separator (empty parts kept,
`"".split(sep) = [""]`). -/
def pySplit (s sep : String) : List String :=
  (splitListAux sep.data (s.data.length + 1) s.data []).map List.asString

/-- Python's `s.strip()`. -/
def pyTrim (s : String) : String :=
  (((s.data.dropWhile Char.isWhitespace).reverse.dropWhile
    Char.isWhitespace).reverse).asString

/-- Python's `int(s)` restricted to nonnegative decimal numerals, the only
forms the day-range options receive; `none` models the `ValueError`. -/
def pyToNat? (s : String) : Option Nat :=
  let t := (pyTrim s).data
  if t ≠ [] ∧ t.all Char.isDigit then
    some (t.foldl (fun n c => n * 10 + (c.toNat - 48)) 0)
  else none

/-- Python's `s.lower()` (ASCII case folding suffices here). -/
def pyLower (s : String) : String :=
  (s.data.map Char.toLower).asString

/-- Python's `s.startswith(pre)` / a string-prefix test. -/
def pyStartsWith (s pre : String) : Bool :=
  pre.data.isPrefixOf s.data

/-- Python's `s.split(sep, 1)` for a separator occurring in `s`:
the part before the first occurrence and the rest. -/
def splitOnce (s sep : String) : String × String :=
  match pySplit s sep with
  | [] => (s, "")
  | [a] => (a, "")
  | a :: rest =>
    (a, (List.intercalate sep.data (rest.map String.data)).asString)

/-- The day numbers contributed by a range token `a-b`:
Python's `range(a, b + 1)`, empty when `a > b`. -/
def rangeContribution (a b : Nat) : List Nat :=
  List.range' a (b + 1 - a)

/-- One token of a day-range string: strip, skip if empty, a range `a-b`
when it contains a dash, else a single day. -/
def parseToken (t : String) : Option (List Nat) :=
  let part := pyTrim t
  if part = "" then some []
  else if pyIn "-" part then
    let (s, e) := splitOnce part "-"
    do
      let a ← pyToNat? s
      let b ← pyToNat? e
      pure (rangeContribution a b)
  else (pyToNat? part).map (fun d => [d])

/-- Embedding of `parse_day_ranges` (and of the three identical loops in
`parse_args`): split on commas, parse every token, collect into a set. -/
def parse_day_ranges (s : String) : Option (Finset Nat) :=
  (pySplit s ",").foldlM
    (fun acc t => (parseToken t).map (fun l => l.foldl (fun a d => insert d a) acc))
    (∅ : Finset Nat)

/-- An absent or empty option contributes the empty set
(`args.present_dates = set()` before the `if present_dates_raw:` guard). -/
def parseDayRangesOpt (o : Option String) : Option (Finset Nat) :=
  match o with
  | none => some ∅
  | some s => parse_day_ranges s

/-! ## The filler CLI front gate (hilan_filler.py lines 103-369)

`parse_args` defines exactly the options below (argparse adds `-h` and `--help`).
An option string not among them — and not an abbreviation (prefix) of one of
the long ones — makes argparse fail with a usage error before any of the
later validation runs.  Our acceptance test treats ANY prefix match as
accepted, an over-approximation of argparse (which requires the prefix to be
unambiguous); the theorems below only use it to prove rejection, where the
over-approximation is conservative. -/

/-- The option strings defined by `add_argument` in `parse_args`,
plus argparse's automatic `-h` and `--help`. -/
def filler_option_strings : List String :=
  ["-h", "--help", "-u", "--user", "-p", "--password", "--start-time",
   "--end-time", "--project", "--present-days", "--present-dates",
   "--vacation", "--sick-days", "--sick-file", "--month", "--year",
   "--headless", "--dry-run", "--verbose", "--slow-mo"]

/-- Whether the filler's argparse parser accepts an option string. -/
def fillerAcceptsOption (s : String) : Bool :=
  filler_option_strings.any (fun o => o == s) ||
  (pyStartsWith s "--" &&
    filler_option_strings.any
      (fun o => pyStartsWith o "--" && s.data.isPrefixOf o.data))

/-- Missing-attachment condition of lines 318-320:
`len(args.sick_days_set) > 2 and not args.sick_file`. -/
def sick_file_missing (sickDays : Finset Nat) (sickFile : Option String) : Bool :=
  2 < sickDays.card && sickFile.isNone

/-- A set sorted ascending, as Python's `sorted(overlap)`. -/
def sortedDays (s : Finset Nat) : List Nat :=
  s.sort (· ≤ ·)

/-- Embedding of the three overlap checks of lines 344-367, in source order:
vacation/sick, present-dates/vacation, present-dates/sick.  Each check fires
only when both sets are truthy (non-empty) and their intersection is
non-empty, and reports the sorted overlapping day numbers. -/
def overlap_check (vacationDays sickDays presentDates : Finset Nat) :
    Option (String × String × List Nat) :=
  if vacationDays ≠ ∅ ∧ sickDays ≠ ∅ ∧ vacationDays ∩ sickDays ≠ ∅ then
    some ("--vacation", "--sick-days", sortedDays (vacationDays ∩ sickDays))
  else if presentDates ≠ ∅ ∧ vacationDays ≠ ∅ ∧ presentDates ∩ vacationDays ≠ ∅ then
    some ("--present-dates", "--vacation", sortedDays (presentDates ∩ vacationDays))
  else if presentDates ≠ ∅ ∧ sickDays ≠ ∅ ∧ presentDates ∩ sickDays ≠ ∅ then
    some ("--present-dates", "--sick-days", sortedDays (presentDates ∩ sickDays))
  else none

/-- Outcome of the CLI front gate, before any browser action. -/
inductive GateOutcome where
  | usageError (opt : String)
  | parseError (opt : String)
  | sickFileError
  | overlapError (optA optB : String) (days : List Nat)
  | proceed (presentDates sickDays vacationDays : Finset Nat)
deriving DecidableEq

/-- The filler CLI front gate over a list of (option, value) pairs: argparse
option recognition, then the day-set parsing and validation of `parse_args`
in source order (present-dates parse, sick-days parse, sick-file check,
vacation parse, overlap checks).  Validations of options not modelled here
(time format, month/year bounds, sick-file existence on disk) concern other
inputs and pass at their defaults.  `lookOpt` is the attribute lookup on the
parsed argparse namespace. -/
def lookOpt (opts : List (String × String)) (name : String) : Option String :=
  (opts.find? (fun q => q.1 == name)).map (fun q => q.2)

/-- The gate itself; see the section comment above. -/
def filler_gate (opts : List (String × String)) : GateOutcome :=
  match opts.find? (fun q => !fillerAcceptsOption q.1) with
  | some q => .usageError q.1
  | none =>
    match parseDayRangesOpt (lookOpt opts "--present-dates") with
    | none => .parseError "--present-dates"
    | some presentDates =>
      match parseDayRangesOpt (lookOpt opts "--sick-days") with
      | none => .parseError "--sick-days"
      | some sickDays =>
        if sick_file_missing sickDays (lookOpt opts "--sick-file") then .sickFileError
        else
          match parseDayRangesOpt (lookOpt opts "--vacation") with
          | none => .parseError "--vacation"
          | some vacationDays =>
            match overlap_check vacationDays sickDays presentDates with
            | some (a, b, days) => .overlapError a b days
            | none => .proceed presentDates sickDays vacationDays

/-! ## The interactive shell's command builder (hilan_interactive.py
lines 563-596) -/

/-- The parameter dictionary assembled by the interactive shell
(`collect_params` / `edit_params`).  Day sets are kept as the raw strings
the user typed, exactly as in the source's `params` dict. -/
structure InteractiveParams where
  user : String
  password : String
  project : String
  month : Nat
  year : Nat
  start_time : String
  end_time : String
  present_days : String
  present_dates : String
  vacation : String
  sick_days : String
  sick_file : String
  rd_days : String
  rd_file : String
  headless : Bool
  dry_run : Bool
deriving DecidableEq, Repr

/-- Embedding of `build_command`: the argument list handed to
`subprocess.run`.  `sys.executable` and the script path are abstracted as
the placeholder strings "python" and "hilan_filler.py". -/
def build_command (p : InteractiveParams) : List String :=
  ["python", "hilan_filler.py", "-u", p.user, "-p", p.password,
   "--project", p.project, "--month", toString p.month,
   "--year", toString p.year, "--start-time", p.start_time,
   "--end-time", p.end_time]
  ++ (if p.present_days ≠ "" then ["--present-days", p.present_days] else [])
  ++ (if p.present_dates ≠ "" then ["--present-dates", p.present_dates] else [])
  ++ (if p.vacation ≠ "" then ["--vacation", p.vacation] else [])
  ++ (if p.sick_days ≠ "" then ["--sick-days", p.sick_days] else [])
  ++ (if p.sick_file ≠ "" then ["--sick-file", p.sick_file] else [])
  ++ (if p.rd_days ≠ "" then ["--rd-days", p.rd_days] else [])
  ++ (if p.rd_file ≠ "" then ["--rd-file", p.rd_file] else [])
  ++ (if p.headless then ["--headless"] else [])
  ++ (if p.dry_run then ["--dry-run"] else [])

/-! ## Grid model (hilan_filler.py, `get_grid_rows_info` lines 745-826 and
`fill_all_hours` lines 991-1795)

A grid row as read from the page by `get_grid_rows_info`.  Element-handle
ids are kept only where the code branches on their presence. -/

/-- One row of the reports grid, as returned by `get_grid_rows_info`. -/
structure Row where
  rowIndex : Nat
  dateText : String
  hasEntryInput : Bool
  hasExitInput : Bool
  currentEntry : String
  currentExit : String
  hasProjectInput : Bool
  currentProject : String
  currentProjectText : String
  hasSymbolSelect : Bool
  symbolSelectId : Option String
  currentSymbol : String
deriving DecidableEq, Repr

/-- The parameters of `fill_all_hours` (line 991). -/
structure FillConfig where
  entry_time : String
  exit_time : String
  project : Option String
  present_weekdays : Finset Nat
  present_dates : Finset Nat
  vacation_days : Finset Nat
  sick_days : Finset Nat
  sick_file : Option String
  workdays : List PyDate
deriving DecidableEq

/-- Two-digit zero-padded rendering, as the format `{n:02d}`. -/
def fmt2 (n : Nat) : String :=
  if n < 10 then "0" ++ toString n else toString n

/-- The `workday_dates` lookup set of lines 1007-1009: one "DD/MM" string
per workday. -/
def workday_dates (cfg : FillConfig) : List String :=
  cfg.workdays.map (fun wd => fmt2 wd.day ++ "/" ++ fmt2 wd.month)

/-- Truthiness of the row's hours: `bool(entry.strip() or exit.strip())`. -/
def rowHasHours (row : Row) : Bool :=
  pyTrim row.currentEntry != "" || pyTrim row.currentExit != ""

/-- The day number of a "DD/MM" label: `int(date_ddmm.split("/")[0])`. -/
def dayNumOf (ddmm : String) : Option Nat :=
  pyToNat? ((pySplit ddmm "/").headD "")

/-- The month number of a "DD/MM" label: `int(date_ddmm.split("/")[1])`
(`none` models the `IndexError`/`ValueError` caught at lines 1595-1596). -/
def monthNumOf (ddmm : String) : Option Nat :=
  pyToNat? (((pySplit ddmm "/").drop 1).headD "")

/-- The `matching_wd` lookup of lines 1289-1293: the first workday whose
"DD/MM" rendering equals the row's date label. -/
def matching_wd (cfg : FillConfig) (ddmm : String) : Option PyDate :=
  cfg.workdays.find? (fun wd => fmt2 wd.day ++ "/" ++ fmt2 wd.month == ddmm)

/-- The expected status symbol of lines 1296-1299: "0" (presence) when the
day's weekday is a recurring office weekday or its day number is an ad-hoc
office date, else "15" (w.home). -/
def expected_symbol (cfg : FillConfig) (wd : PyDate) : String :=
  if pyWeekday wd.year wd.month wd.day ∈ cfg.present_weekdays ∨ wd.day ∈ cfg.present_dates
  then "0" else "15"

/-- The sick symbol of lines 1198-1199 and 1433: "5" (sick day declaration)
for at most 2 sick days, else "6" (sick).  Depends only on the size of the
whole sick-day set. -/
def sickSymbolOf (cfg : FillConfig) : String :=
  if cfg.sick_days.card ≤ 2 then "5" else "6"

/-- A state-changing (postback-triggering) grid action of the
status-changing pass.  `clears` records the clear-hours/project JS step that
precedes the symbol change for vacation/sick days; `upload` records the
sick-certificate upload step of lines 1247-1269. -/
inductive GridAction where
  | deleteRow (rowIndex : Nat)
  | setSymbol (rowIndex : Nat) (value : String) (clears upload : Bool)
deriving DecidableEq, Repr

/-- Pass-1 per-row decision (lines 1060-1361): the state-changing action the
first scan performs on this row, if any.  `none` covers rows that are
skipped, already correct, or recorded as failed without any page action.
A non-numeric day label would raise `ValueError` in the source (aborting the
pass); rows reaching that point carry numeric "DD/MM" labels. -/
def rowActionPass1 (cfg : FillConfig) (row : Row) : Option GridAction :=
  match pySplit row.dateText " " with
  | [] => none
  | ddmm :: rest =>
    let dayName := rest.headD ""
    if dayName = "Fri" ∨ dayName = "Sat" then
      if row.currentSymbol ≠ "" ∧
          (rowHasHours row = true ∨ row.currentSymbol ∉ (["", "15"] : List String)) then
        some (.deleteRow row.rowIndex)
      else none
    else if ddmm ∉ workday_dates cfg then none
    else
      match dayNumOf ddmm with
      | none => none
      | some day =>
        if day ∈ cfg.vacation_days then
          if row.currentSymbol = "2" ∧ rowHasHours row = false then none
          else if row.hasSymbolSelect = true ∧ row.symbolSelectId.isSome = true then
            some (.setSymbol row.rowIndex "2" true false)
          else none
        else if day ∈ cfg.sick_days then
          if row.currentSymbol = sickSymbolOf cfg ∧ rowHasHours row = false then none
          else if row.hasSymbolSelect = true ∧ row.symbolSelectId.isSome = true then
            some (.setSymbol row.rowIndex (sickSymbolOf cfg) true
              (sickSymbolOf cfg == "6" && cfg.sick_file.isSome))
          else none
        else if row.hasSymbolSelect then
          match matching_wd cfg ddmm with
          | none => none
          | some wd =>
            if row.currentSymbol ∈ (["2", "5", "6"] : List String) then
              some (.deleteRow row.rowIndex)
            else if row.currentSymbol ≠ "" ∧ row.currentSymbol ≠ expected_symbol cfg wd then
              some (.setSymbol row.rowIndex (expected_symbol cfg wd) false false)
            else none
        else none

/-- Rescan per-row decision (lines 1379-1533).  Differences from pass 1:
Fri/Sat rows are skipped outright (line 1388), the sick branch performs no
certificate upload, and the absence-delete check precedes the `matching_wd`
lookup. -/
def rowActionRescan (cfg : FillConfig) (row : Row) : Option GridAction :=
  match pySplit row.dateText " " with
  | [] => none
  | ddmm :: rest =>
    let dayName := rest.headD ""
    if dayName = "Fri" ∨ dayName = "Sat" then none
    else if ddmm ∉ workday_dates cfg then none
    else
      match dayNumOf ddmm with
      | none => none
      | some day =>
        if day ∈ cfg.vacation_days then
          if row.currentSymbol = "2" ∧ rowHasHours row = false then none
          else if row.hasSymbolSelect = true ∧ row.symbolSelectId.isSome = true then
            some (.setSymbol row.rowIndex "2" true false)
          else none
        else if day ∈ cfg.sick_days then
          if row.currentSymbol = sickSymbolOf cfg ∧ rowHasHours row = false then none
          else if row.hasSymbolSelect = true ∧ row.symbolSelectId.isSome = true then
            some (.setSymbol row.rowIndex (sickSymbolOf cfg) true false)
          else none
        else if row.hasSymbolSelect then
          if row.currentSymbol ∈ (["2", "5", "6"] : List String) then
            some (.deleteRow row.rowIndex)
          else
            match matching_wd cfg ddmm with
            | none => none
            | some wd =>
              if row.currentSymbol ≠ "" ∧ row.currentSymbol ≠ expected_symbol cfg wd then
                some (.setSymbol row.rowIndex (expected_symbol cfg wd) false false)
              else none
        else none

/-- A scan of the row list with the source's `break` after the first
state-changing action: the first row with an action, paired with it. -/
def firstAction (act : Row → Option GridAction) (rows : List Row) :
    Option (Row × GridAction) :=
  rows.findSome? (fun r => (act r).map (fun a => (r, a)))

/-- The action (with its row) chosen by one pass-1 scan. -/
def pass1Scan (cfg : FillConfig) (rows : List Row) : Option (Row × GridAction) :=
  firstAction (rowActionPass1 cfg) rows

/-- The action (with its row) chosen by one rescan-loop scan. -/
def rescanScan (cfg : FillConfig) (rows : List Row) : Option (Row × GridAction) :=
  firstAction (rowActionRescan cfg) rows

/-! ## Page-operation model of one action

Each grid action decomposes into the page interactions the source performs,
in order, each tagged with the row index it addresses (if any) and whether
it triggers a postback. -/

/-- One page interaction: the row index used to locate the element (if any)
and whether the interaction triggers a postback. -/
structure PageOp where
  rowId : Option Nat
  postback : Bool
deriving DecidableEq, Repr

/-- The page interactions of one action, in source order.
Delete: the `doControlClick` on the row's delete span (postback), then the
OK click in the confirmation dialog (located without a row index).
Set-symbol: the optional clear-hours/project JS addressed by row index, the
`select_option` that triggers the postback, and — for 3-plus sick days with
an attachment — the certificate-upload interaction of lines 1247-1258,
which locates the upload span by the SAME pre-postback row index. -/
def actionOps : GridAction → List PageOp
  | .deleteRow i => [⟨some i, true⟩, ⟨none, false⟩]
  | .setSymbol i _ clears upload =>
    (if clears then [⟨some i, false⟩] else []) ++ [⟨some i, true⟩] ++
      (if upload then [⟨some i, false⟩] else [])

/-- Whether an interaction that addresses an element by row id occurs after
some postback within the same op list. -/
def staleUseFrom (seenPostback : Bool) : List PageOp → Bool
  | [] => false
  | op :: t =>
    (seenPostback && op.rowId.isSome) || staleUseFrom (seenPostback || op.postback) t

/-- Whether the action uses a pre-postback row identifier after a postback. -/
def hasStaleUse (a : GridAction) : Bool :=
  staleUseFrom false (actionOps a)

/-- Whether the action carries the sick-certificate upload step. -/
def isUploadAction : GridAction → Bool
  | .setSymbol _ _ _ u => u
  | _ => false

/-! ## The rescan fixed-point loop (lines 1363-1536)

`_rescan_count = 0; while postback_occurred and _rescan_count < 50:` —
each iteration increments the counter, re-reads the grid, returns early if
it is empty, scans, applies at most one action (then loops), or breaks.
The server's response to an action is the parameter `apply`.  The loop body
never touches `failure_count` (even its exception handlers only log), and
reaching the 50-iteration cap simply falls through to pass 2. -/

/-- Result of the rescan loop: final page state, number of iterations of the
while loop that ran, actions applied, failures recorded by the loop (none
exist in the source), and whether the early empty-grid return was taken. -/
structure RescanResult where
  grid : List Row
  rescans : Nat
  successes : Nat
  failures : Nat
  emptyGridAbort : Bool
deriving DecidableEq, Repr

/-- The loop with `fuel` iterations left before the cap (`fuel + done = 50`
at the top-level call). -/
def rescanLoopAux (apply : Row → GridAction → List Row → List Row)
    (cfg : FillConfig) : Nat → List Row → Nat → Nat → RescanResult
  | 0, g, done, succ => ⟨g, done, succ, 0, false⟩
  | n + 1, g, done, succ =>
    if g = [] then ⟨g, done + 1, succ, 0, true⟩
    else
      match rescanScan cfg g with
      | some (r, a) => rescanLoopAux apply cfg n (apply r a g) (done + 1) (succ + 1)
      | none => ⟨g, done + 1, succ, 0, false⟩

/-- The rescan loop as run after pass 1 (`postbackOccurred` is pass 1's
flag; the loop body runs only when it is set). -/
def rescanLoop (apply : Row → GridAction → List Row → List Row)
    (cfg : FillConfig) (postbackOccurred : Bool) (g : List Row) : RescanResult :=
  if postbackOccurred then rescanLoopAux apply cfg 50 g 0 0 else ⟨g, 0, 0, 0, false⟩

/-! ## Pass 2 — value filling (lines 1548-1690) -/

/-- What pass 2 writes into one row: the hour fields, and the project
autocomplete. -/
structure Pass2Plan where
  fillsHours : Bool
  fillsProject : Bool
deriving DecidableEq, Repr

/-- Whether `datetime.date(year, month, day)` would construct (the
constructor raises `ValueError` otherwise, caught at lines 1595-1596). -/
def validPyDate (p : PyDate) : Bool :=
  1 ≤ p.year && 1 ≤ p.month && p.month ≤ 12 && 1 ≤ p.day && p.day ≤ daysInMonth p.year p.month

/-- The project short code of lines 1608 and 889:
`project.split(" - ")[0].strip() if project and " - " in project else (project or "")`. -/
def project_code_of (project : Option String) : String :=
  match project with
  | none => ""
  | some p => if pyIn " - " p then pyTrim ((pySplit p " - ").headD "") else p

/-- Python truthiness of the optional project string. -/
def projTruthy (project : Option String) : Bool :=
  match project with
  | none => false
  | some p => p != ""

/-- Pass-2 per-row decision (lines 1555-1673): `none` when the row is
skipped (Fri/Sat, non-workday, vacation/sick day, missing hour inputs, or
nothing to do), otherwise which of the two writes happen.
`today` is `date.today()`; the future test uses
`workdays[0].year if workdays else date.today().year` for the year. -/
def pass2RowPlan (cfg : FillConfig) (today : PyDate) (row : Row) : Option Pass2Plan :=
  match pySplit row.dateText " " with
  | [] => none
  | ddmm :: rest =>
    let dayName := rest.headD ""
    if dayName = "Fri" ∨ dayName = "Sat" then none
    else if ddmm ∉ workday_dates cfg then none
    else
      match dayNumOf ddmm with
      | none => none
      | some day =>
        if day ∈ cfg.vacation_days ∨ day ∈ cfg.sick_days then none
        else if row.hasEntryInput = false ∨ row.hasExitInput = false then none
        else
          let is_future : Bool :=
            match dayNumOf ddmm, monthNumOf ddmm with
            | some dd, some mm =>
              let yr := (cfg.workdays.headD ⟨today.year, today.month, today.day⟩).year
              validPyDate ⟨yr, mm, dd⟩ && pyDateGt ⟨yr, mm, dd⟩ today
            | _, _ => false
          let hours_correct : Bool :=
            pyTrim row.currentEntry == cfg.entry_time &&
              pyTrim row.currentExit == cfg.exit_time
          let hours_need_fill : Bool := !hours_correct && !is_future
          let current_project := pyTrim row.currentProject
          let cpt := pyTrim row.currentProjectText
          let code := project_code_of cfg.project
          let project_already_set : Bool :=
            current_project != "" &&
              (pyIn code current_project || pyIn (pyLower code) (pyLower cpt))
          let project_needs_fill : Bool := projTruthy cfg.project && !project_already_set
          if !hours_need_fill && !project_needs_fill then none
          else
            let has_hours_now : Bool := pyTrim row.currentEntry != "" || hours_need_fill
            some ⟨hours_need_fill,
                  projTruthy cfg.project && project_needs_fill && has_hours_now⟩

/-! ## Exit codes of `main` (lines 1802-1924) -/

/-- How the browser-automation block of `main` ends: normal completion of
`fill_all_hours` with its (success, failure) counts, or one of the three
exception classes caught at lines 1898-1921. -/
inductive FillRunResult where
  | completed (success failure : Nat)
  | loginFailure
  | timeoutError
  | unexpectedError
deriving DecidableEq, Repr

/-- The process exit code of `main`: 0 for no workdays (line 1817) and for
dry-run (line 1826); after the browser run, 1 for each handled exception
(lines 1900, 1911, 1921) and 0 on normal completion — the `failure > 0`
branch at lines 1879-1880 only logs a warning. -/
def mainExitCode (workdays : List PyDate) (dry_run : Bool) (r : FillRunResult) : Nat :=
  if workdays = [] then 0
  else if dry_run then 0
  else
    match r with
    | .completed _ _ => 0
    | .loginFailure => 1
    | .timeoutError => 1
    | .unexpectedError => 1

/-! ## Helper lemmas -/

theorem firstAction_mem {act : Row → Option GridAction} {rows : List Row}
    {r : Row} {a : GridAction} (h : firstAction act rows = some (r, a)) :
    r ∈ rows ∧ act r = some a := by
  induction rows with
  | nil => simp [firstAction, List.findSome?] at h
  | cons x t ih =>
    rw [firstAction, List.findSome?] at h
    cases hb : act x with
    | some a0 =>
      simp [hb] at h
      obtain ⟨rfl, rfl⟩ := h
      exact ⟨List.mem_cons_self _ _, hb⟩
    | none =>
      simp [hb] at h
      have hm := ih h
      exact ⟨List.mem_cons_of_mem _ hm.1, hm.2⟩

theorem firstAction_eq_head (act : Row → Option GridAction) (rows : List Row) :
    firstAction act rows =
      (rows.filterMap (fun r => (act r).map (fun a => (r, a)))).head? := by
  induction rows with
  | nil => rfl
  | cons x t ih =>
    rw [firstAction, List.findSome?, List.filterMap_cons]
    cases hx : (act x).map (fun a => (x, a)) with
    | some b => simp
    | none => exact ih

theorem rescanLoopAux_failures (apply : Row → GridAction → List Row → List Row)
    (cfg : FillConfig) :
    ∀ (n : Nat) (g : List Row) (done succ : Nat),
      (rescanLoopAux apply cfg n g done succ).failures = 0 := by
  intro n
  induction n with
  | zero => intro g done succ; rfl
  | succ m ih =>
    intro g done succ
    rw [rescanLoopAux]
    split
    · rfl
    · cases h : rescanScan cfg g with
      | none => rfl
      | some p =>
        obtain ⟨r, a⟩ := p
        exact ih _ _ _

theorem rescanLoopAux_rescans_le (apply : Row → GridAction → List Row → List Row)
    (cfg : FillConfig) :
    ∀ (n : Nat) (g : List Row) (done succ : Nat),
      (rescanLoopAux apply cfg n g done succ).rescans ≤ done + n := by
  intro n
  induction n with
  | zero => intro g done succ; simp [rescanLoopAux]
  | succ m ih =>
    intro g done succ
    rw [rescanLoopAux]
    split
    · show done + 1 ≤ done + (m + 1)
      omega
    · cases h : rescanScan cfg g with
      | none =>
        show done + 1 ≤ done + (m + 1)
        omega
      | some p =>
        obtain ⟨r, a⟩ := p
        show (rescanLoopAux apply cfg m (apply r a g) (done + 1) (succ + 1)).rescans ≤
          done + (m + 1)
        exact le_trans (ih _ _ _) (by omega)

theorem hasStaleUse_eq_upload (a : GridAction) :
    hasStaleUse a = isUploadAction a := by
  cases a with
  | deleteRow i => rfl
  | setSymbol i v c u => cases c <;> cases u <;> rfl

theorem rowActionRescan_no_upload {cfg : FillConfig} {row : Row} {a : GridAction}
    (h : rowActionRescan cfg row = some a) : isUploadAction a = false := by
  simp only [rowActionRescan] at h
  repeat' split at h
  all_goals try exact Option.noConfusion h
  all_goals (injection h with h2; subst h2; rfl)

/-! ## Demo inputs used by witnesses and counterexamples -/

/-- An interactive-shell parameter dictionary with reserve-duty days set;
the shell always collects an order-file path when the days are non-empty. -/
def c3Params : InteractiveParams :=
  { user := "12345", password := "pw", project := "12086 - AGUR IC",
    month := 12, year := 2025, start_time := "09:00", end_time := "18:00",
    present_days := "", present_dates := "", vacation := "", sick_days := "",
    sick_file := "", rd_days := "10-12", rd_file := "tzav8.pdf",
    headless := false, dry_run := false }

/-- A fill configuration with one vacation day (the 8th) for December 2025;
the workday list holds three genuine Sun-Thu days of that month. -/
def c5Cfg : FillConfig :=
  { entry_time := "09:00", exit_time := "18:00",
    project := some "12086 - AGUR IC", present_weekdays := ∅,
    present_dates := ∅, vacation_days := {8}, sick_days := ∅,
    sick_file := none,
    workdays := [⟨2025, 12, 8⟩, ⟨2025, 12, 9⟩, ⟨2025, 12, 25⟩] }

/-- The grid row for December 8 (a Monday) currently carrying the remote
symbol "15": the vacation symbol still needs to be set. -/
def c5Row : Row :=
  { rowIndex := 3, dateText := "08/12 Mon", hasEntryInput := true,
    hasExitInput := true, currentEntry := "", currentExit := "",
    hasProjectInput := true, currentProject := "", currentProjectText := "",
    hasSymbolSelect := true, symbolSelectId := some "sel3",
    currentSymbol := "15" }

/-- Same configuration as `c5Cfg` but without any vacation days, for the
empty-symbol claim. -/
def c9Cfg : FillConfig :=
  { c5Cfg with vacation_days := ∅ }

/-- A workday row (December 9, a Tuesday) whose symbol selector currently
shows the empty value. -/
def c9Row : Row :=
  { c5Row with
    rowIndex := 4, dateText := "09/12 Tue",
    symbolSelectId := some "sel4", currentSymbol := "" }

/-! ## Claim C1 -/

/-- C1 (amended): after a normal completion of the browser run, the process
exits 0 whatever the per-day success/failure counts are (the `failure > 0`
branch only logs a warning); exit code 0 on dry-run, and 1 on login
failure, timeout, or unexpected error. -/
theorem c1_exit_code_amended (workdays : List PyDate) (dry : Bool) (s f : Nat)
    (hw : workdays ≠ []) (hd : dry = false) :
    mainExitCode workdays dry (.completed s f) = 0 ∧
    mainExitCode workdays dry .loginFailure = 1 ∧
    mainExitCode workdays dry .timeoutError = 1 ∧
    mainExitCode workdays dry .unexpectedError = 1 ∧
    (∀ r : FillRunResult, mainExitCode workdays true r = 0) := by
  subst hd
  simp [mainExitCode, hw]

/-- C1 witness: the amended exit-code facts at December 2025 inputs. -/
theorem c1_exit_code_amended_witness :
    mainExitCode (get_workdays [] 2025 12) false (.completed 2 0) = 0 ∧
    mainExitCode (get_workdays [] 2025 12) false .loginFailure = 1 ∧
    mainExitCode (get_workdays [] 2025 12) false .timeoutError = 1 ∧
    mainExitCode (get_workdays [] 2025 12) false .unexpectedError = 1 := by
  have h := c1_exit_code_amended (get_workdays [] 2025 12) false 2 0
    (by decide) rfl
  exact ⟨h.1, h.2.1, h.2.2.1, h.2.2.2.1⟩

/-- C1 counterexample: a December 2025 run (non-empty workday list, no
dry-run) in which 1 day failed outright while 1 succeeded still exits 0,
contradicting the claim that the process exits non-zero in that case. -/
theorem c1_partial_failure_exit_zero :
    get_workdays [] 2025 12 ≠ [] ∧
    mainExitCode (get_workdays [] 2025 12) false (.completed 1 1) = 0 := by
  decide

/-! ## Claim C3 -/

/-- C3: the interactive shell's `build_command` passes `--rd-days` and
`--rd-file` to hilan_filler.py, but the filler's `parse_args` defines no
such options (nor any prefix of them), so argparse rejects the command with
a usage error before anything runs; no reserve-duty classification exists
in the filler. -/
theorem c3_rd_options_not_accepted :
    "--rd-days" ∈ build_command c3Params ∧
    "--rd-file" ∈ build_command c3Params ∧
    fillerAcceptsOption "--rd-days" = false ∧
    fillerAcceptsOption "--rd-file" = false ∧
    filler_gate [("--rd-days", "10-12"), ("--rd-file", "tzav8.pdf")] =
      GateOutcome.usageError "--rd-days" := by
  decide

/-! ## Claim C5 -/

/-- C5 (amended): the rescan fixed-point loop performs at most 50
iterations and never records a failure or raises any error; hitting the
cap silently falls through to the value-filling pass. -/
theorem c5_cap_silent_amended (apply : Row → GridAction → List Row → List Row)
    (cfg : FillConfig) (g : List Row) (pb : Bool) :
    (rescanLoop apply cfg pb g).failures = 0 ∧
    (rescanLoop apply cfg pb g).rescans ≤ 50 := by
  cases pb with
  | false => exact ⟨rfl, Nat.zero_le 50⟩
  | true =>
    refine ⟨rescanLoopAux_failures apply cfg 50 g 0 0, ?_⟩
    have h := rescanLoopAux_rescans_le apply cfg 50 g 0 0
    simpa using h

/-- C5 counterexample: with a server that never applies the requested
change (`apply` returns the grid unchanged), the loop hits its 50-iteration
cap while a change is still pending, yet it terminates normally: no failure
is recorded and no convergence error exists in the result. -/
theorem c5_cap_hit_no_error :
    (rescanLoop (fun _ _ g => g) c5Cfg true [c5Row]).rescans = 50 ∧
    (rescanLoop (fun _ _ g => g) c5Cfg true [c5Row]).successes = 50 ∧
    (rescanLoop (fun _ _ g => g) c5Cfg true [c5Row]).failures = 0 ∧
    rescanScan c5Cfg ((rescanLoop (fun _ _ g => g) c5Cfg true [c5Row]).grid) ≠
      none := by
  decide

/-! ## Claim C9 -/

/-- C9: a non-weekend workday row that is neither a vacation nor a sick day
and whose current status-symbol value is the empty string receives no
action from the status-changing pass, in both the first scan and the
rescan loop: the absence-delete step requires the symbol to be one of
"2"/"5"/"6" and the presence/remote correction requires a non-empty
current symbol. -/
theorem c9_empty_symbol_untouched (cfg : FillConfig) (row : Row)
    (ddmm dn : String) (day : Nat)
    (hparse : pySplit row.dateText " " = [ddmm, dn])
    (hfri : dn ≠ "Fri") (hsat : dn ≠ "Sat")
    (hday : dayNumOf ddmm = some day)
    (hvac : day ∉ cfg.vacation_days) (hsick : day ∉ cfg.sick_days)
    (hsym : row.currentSymbol = "") :
    rowActionPass1 cfg row = none ∧ rowActionRescan cfg row = none := by
  constructor
  · rw [rowActionPass1, hparse]
    simp only [List.headD_cons]
    rw [if_neg (by simp [hfri, hsat])]
    split
    · rfl
    · simp only [hday]
      rw [if_neg hvac, if_neg hsick]
      by_cases hss : row.hasSymbolSelect = true
      · rw [if_pos hss]
        cases hmw : matching_wd cfg ddmm with
        | none => rfl
        | some wd => simp [hsym]
      · rw [if_neg hss]
  · rw [rowActionRescan, hparse]
    simp only [List.headD_cons]
    rw [if_neg (by simp [hfri, hsat])]
    split
    · rfl
    · simp only [hday]
      rw [if_neg hvac, if_neg hsick]
      by_cases hss : row.hasSymbolSelect = true
      · rw [if_pos hss]
        cases hmw : matching_wd cfg ddmm with
        | none => simp [hsym]
        | some wd => simp [hsym]
      · rw [if_neg hss]

/-- C9 witness: the December 9 row with an empty current symbol is left
untouched by both scans. -/
theorem c9_empty_symbol_untouched_witness :
    rowActionPass1 c9Cfg c9Row = none ∧ rowActionRescan c9Cfg c9Row = none :=
  c9_empty_symbol_untouched c9Cfg c9Row "09/12" "Tue" 9
    (by decide) (by decide) (by decide) (by decide) (by decide) (by decide)
    rfl

/-! ## Claim C2 -/

/-- C2 (amended): `get_workdays` does not return one entry per calendar
day: it returns exactly the days of the month that fall on Sunday through
Thursday and are not in the holiday set.  A date belongs to the result iff
its day number lies in 1..daysInMonth(year, month) and it passes the
workday and holiday tests; entries are pairwise distinct and listed in
ascending calendar order, with weekdays those of the proleptic Gregorian
calendar (`pyWeekday`). -/
theorem c2_get_workdays_amended (hol : List PyDate) (year month : Nat)
    (h1 : 1 ≤ month) (h2 : month ≤ 12) :
    (∀ p : PyDate, p ∈ get_workdays hol year month ↔
      (p.year = year ∧ p.month = month ∧ 1 ≤ p.day ∧
       p.day ≤ daysInMonth year month ∧ isSunToThu year month p.day = true ∧
       p ∉ hol)) ∧
    (get_workdays hol year month).Nodup ∧
    (get_workdays hol year month).Pairwise (fun a b => a.day < b.day) := by
  have hinj : Function.Injective (fun d => (⟨year, month, d⟩ : PyDate)) := by
    intro a b hab
    cases hab
    rfl
  refine ⟨?_, ?_, ?_⟩
  · intro p
    constructor
    · intro hp
      simp only [get_workdays, List.mem_map] at hp
      obtain ⟨d, hd, rfl⟩ := hp
      rw [List.mem_filter] at hd
      obtain ⟨hdr, hpred⟩ := hd
      rw [List.mem_range'_1] at hdr
      simp only [Bool.and_eq_true, Bool.not_eq_true'] at hpred
      refine ⟨rfl, rfl, hdr.1, ?_, hpred.1, ?_⟩
      · show d ≤ daysInMonth year month
        omega
      · intro hmem
        have hc : (hol.contains ⟨year, month, d⟩) = true := List.elem_iff.mpr hmem
        rw [hpred.2] at hc
        exact Bool.noConfusion hc
    · intro hp
      obtain ⟨py, pm, pd⟩ := p
      obtain ⟨hy, hm, hd1, hd2, hwd, hhol⟩ := hp
      dsimp only at hy hm hd1 hd2
      subst hy
      subst hm
      simp only [get_workdays, List.mem_map]
      refine ⟨pd, ?_, rfl⟩
      rw [List.mem_filter, List.mem_range'_1]
      refine ⟨⟨hd1, by omega⟩, ?_⟩
      simp only [Bool.and_eq_true, Bool.not_eq_true']
      refine ⟨hwd, ?_⟩
      rw [Bool.eq_false_iff]
      intro hc
      exact hhol (List.elem_iff.mp hc)
  · exact ((List.nodup_range' 1 (daysInMonth year month)).filter _).map hinj
  · refine List.Pairwise.map _ (fun a b hab => hab) ?_
    exact (List.pairwise_lt_range' 1 (daysInMonth year month)).filter _

/-- C2 witness: for February 2024 with the 14th as a holiday, Sunday
February 4 is returned and the holiday Wednesday February 14 is not. -/
theorem c2_get_workdays_amended_witness :
    (⟨2024, 2, 4⟩ : PyDate) ∈ get_workdays [⟨2024, 2, 14⟩] 2024 2 ∧
    (⟨2024, 2, 14⟩ : PyDate) ∉ get_workdays [⟨2024, 2, 14⟩] 2024 2 := by
  have h := c2_get_workdays_amended [⟨2024, 2, 14⟩] 2024 2 (by decide) (by decide)
  refine ⟨(h.1 ⟨2024, 2, 4⟩).mpr ⟨rfl, rfl, by decide, by decide, by decide, by decide⟩, ?_⟩
  intro hmem
  exact ((h.1 ⟨2024, 2, 14⟩).mp hmem).2.2.2.2.2 (by decide)

/-- C2 counterexample: for February 2024 (29 days) with an empty holiday
set, `get_workdays` returns 21 entries (the Sun-Thu days), not one per
calendar day as the claim states. -/
theorem c2_not_all_days_of_month :
    (get_workdays [] 2024 2).length = 21 ∧ daysInMonth 2024 2 = 29 ∧
    (get_workdays [] 2024 2).length ≠ daysInMonth 2024 2 := by
  decide

/-! ## Claim C4 -/

/-- C4 (amended): the filler CLI enforces pairwise disjointness only among
the three day-request sets it accepts: `overlap_check` returns `none` iff
vacation/sick, present/vacation and present/sick are pairwise disjoint, and
on an overlap it reports the offending pair (first in source order) with
exactly the sorted overlapping day numbers.  The reserve-duty set is not a
filler input at all, so a reserve-duty overlap can never produce such an
error (see the counterexample: it is rejected as an unknown option). -/
theorem c4_overlap_check_amended (vac sick pres : Finset Nat) :
    (overlap_check vac sick pres = none ↔
      vac ∩ sick = ∅ ∧ pres ∩ vac = ∅ ∧ pres ∩ sick = ∅) ∧
    (∀ d : Nat, d ∈ sortedDays (vac ∩ sick) ↔ d ∈ vac ∧ d ∈ sick) ∧
    (vac ∩ sick ≠ ∅ →
      overlap_check vac sick pres =
        some ("--vacation", "--sick-days", sortedDays (vac ∩ sick))) ∧
    (vac ∩ sick = ∅ → pres ∩ vac ≠ ∅ →
      overlap_check vac sick pres =
        some ("--present-dates", "--vacation", sortedDays (pres ∩ vac))) ∧
    (vac ∩ sick = ∅ → pres ∩ vac = ∅ → pres ∩ sick ≠ ∅ →
      overlap_check vac sick pres =
        some ("--present-dates", "--sick-days", sortedDays (pres ∩ sick))) := by
  have key : ∀ s t : Finset Nat, s ∩ t ≠ ∅ → (s ≠ ∅ ∧ t ≠ ∅ ∧ s ∩ t ≠ ∅) := by
    intro s t h
    obtain ⟨d, hd⟩ := Finset.nonempty_iff_ne_empty.mpr h
    rw [Finset.mem_inter] at hd
    exact ⟨Finset.nonempty_iff_ne_empty.mp ⟨d, hd.1⟩,
           Finset.nonempty_iff_ne_empty.mp ⟨d, hd.2⟩, h⟩
  have b3 : vac ∩ sick ≠ ∅ →
      overlap_check vac sick pres =
        some ("--vacation", "--sick-days", sortedDays (vac ∩ sick)) := by
    intro hvs
    rw [overlap_check, if_pos (key _ _ hvs)]
  have b4 : vac ∩ sick = ∅ → pres ∩ vac ≠ ∅ →
      overlap_check vac sick pres =
        some ("--present-dates", "--vacation", sortedDays (pres ∩ vac)) := by
    intro hvs hpv
    rw [overlap_check, if_neg (fun hc => hc.2.2 hvs), if_pos (key _ _ hpv)]
  have b5 : vac ∩ sick = ∅ → pres ∩ vac = ∅ → pres ∩ sick ≠ ∅ →
      overlap_check vac sick pres =
        some ("--present-dates", "--sick-days", sortedDays (pres ∩ sick)) := by
    intro hvs hpv hps
    rw [overlap_check, if_neg (fun hc => hc.2.2 hvs),
        if_neg (fun hc => hc.2.2 hpv), if_pos (key _ _ hps)]
  have bnone : vac ∩ sick = ∅ → pres ∩ vac = ∅ → pres ∩ sick = ∅ →
      overlap_check vac sick pres = none := by
    intro hvs hpv hps
    rw [overlap_check, if_neg (fun hc => hc.2.2 hvs),
        if_neg (fun hc => hc.2.2 hpv), if_neg (fun hc => hc.2.2 hps)]
  refine ⟨⟨?_, fun hs => bnone hs.1 hs.2.1 hs.2.2⟩, ?_, b3, b4, b5⟩
  · intro hnone
    by_cases hvs : vac ∩ sick = ∅
    · by_cases hpv : pres ∩ vac = ∅
      · by_cases hps : pres ∩ sick = ∅
        · exact ⟨hvs, hpv, hps⟩
        · rw [b5 hvs hpv hps] at hnone; exact Option.noConfusion hnone
      · rw [b4 hvs hpv] at hnone; exact Option.noConfusion hnone
    · rw [b3 hvs] at hnone; exact Option.noConfusion hnone
  · intro d
    simp [sortedDays, Finset.mem_sort, Finset.mem_inter]

/-- C4 witness: overlapping vacation {1,2,3} and sick {2,5} sets produce
the vacation/sick overlap error listing exactly the shared day numbers. -/
theorem c4_overlap_check_amended_witness :
    overlap_check {1, 2, 3} {2, 5} {7} =
      some ("--vacation", "--sick-days", sortedDays ({1, 2, 3} ∩ {2, 5})) :=
  (c4_overlap_check_amended {1, 2, 3} {2, 5} {7}).2.2.1 (by decide)

/-- C4 counterexample: a reserve-duty set overlapping the vacation set on
day 4 does not make the run fail with an overlap error listing day 4 —
the filler rejects `--rd-days` as an unrecognized option instead, so the
claimed four-set disjointness check does not exist. -/
theorem c4_rd_overlap_usage_error :
    filler_gate [("--vacation", "4"), ("--rd-days", "4")] =
      GateOutcome.usageError "--rd-days" ∧
    filler_gate [("--vacation", "4"), ("--rd-days", "4")] ≠
      GateOutcome.overlapError "--vacation" "--rd-days" [4] ∧
    filler_gate [("--vacation", "4"), ("--rd-days", "4")] ≠
      GateOutcome.overlapError "--rd-days" "--vacation" [4] := by
  decide

/-! ## Claim C6 -/

/-- A December 2025 configuration with a project and no absence requests. -/
def c6Cfg : FillConfig :=
  { entry_time := "09:00", exit_time := "18:00",
    project := some "12086 - AGUR IC", present_weekdays := ∅,
    present_dates := ∅, vacation_days := ∅, sick_days := ∅, sick_file := none,
    workdays := [⟨2025, 12, 8⟩, ⟨2025, 12, 9⟩, ⟨2025, 12, 25⟩] }

/-- The run date: December 10, 2025 (a Wednesday). -/
def c6Today : PyDate := ⟨2025, 12, 10⟩

/-- A future workday row (December 25) with empty hours and an empty
(mismatched) project; its symbol is already the expected remote "15". -/
def c6Row : Row :=
  { rowIndex := 17, dateText := "25/12 Thu", hasEntryInput := true,
    hasExitInput := true, currentEntry := "", currentExit := "",
    hasProjectInput := true, currentProject := "", currentProjectText := "",
    hasSymbolSelect := true, symbolSelectId := some "sel17",
    currentSymbol := "15" }

/-- The same future row but already carrying (wrong) hours and the wrong
presence symbol "0". -/
def c6RowWithHours : Row :=
  { c6Row with
    currentEntry := "08:00", currentExit := "17:00", currentSymbol := "0" }

/-- C6 (amended): for a future-dated workday row, pass 2 never writes the
hour fields, and the status-changing pass still applies the symbol
correction when the current symbol is non-empty and mismatched (pass 1
never consults the date); but the project correction runs only when the
row already carries a current entry value — with empty current hours a
future row's mismatched project is NOT corrected, because `has_hours_now`
(line 1667) is false when no hour fill happens. -/
theorem c6_future_day_amended (cfg : FillConfig) (today : PyDate) (row : Row)
    (ddmm dn : String) (day mon : Nat) (wd : PyDate)
    (hparse : pySplit row.dateText " " = [ddmm, dn])
    (hfri : dn ≠ "Fri") (hsat : dn ≠ "Sat")
    (hwd : ddmm ∈ workday_dates cfg)
    (hday : dayNumOf ddmm = some day)
    (hmon : monthNumOf ddmm = some mon)
    (hvac : day ∉ cfg.vacation_days) (hsick : day ∉ cfg.sick_days)
    (hent : row.hasEntryInput = true) (hexit : row.hasExitInput = true)
    (hfut : (validPyDate ⟨(cfg.workdays.headD
               ⟨today.year, today.month, today.day⟩).year, mon, day⟩ &&
             pyDateGt ⟨(cfg.workdays.headD
               ⟨today.year, today.month, today.day⟩).year, mon, day⟩ today) = true) :
    (∀ plan, pass2RowPlan cfg today row = some plan → plan.fillsHours = false) ∧
    (pyTrim row.currentEntry = "" →
      ∀ plan, pass2RowPlan cfg today row = some plan → plan.fillsProject = false) ∧
    (pyTrim row.currentEntry ≠ "" → projTruthy cfg.project = true →
      (pyTrim row.currentProject != "" &&
        (pyIn (project_code_of cfg.project) (pyTrim row.currentProject) ||
         pyIn (pyLower (project_code_of cfg.project))
           (pyLower (pyTrim row.currentProjectText)))) = false →
      pass2RowPlan cfg today row = some ⟨false, true⟩) ∧
    (row.hasSymbolSelect = true → matching_wd cfg ddmm = some wd →
      row.currentSymbol ∉ (["2", "5", "6"] : List String) →
      row.currentSymbol ≠ "" → row.currentSymbol ≠ expected_symbol cfg wd →
      rowActionPass1 cfg row = some
        (.setSymbol row.rowIndex (expected_symbol cfg wd) false false)) := by
  have hred : ∀ plan, pass2RowPlan cfg today row = some plan →
      plan = ⟨false, projTruthy cfg.project &&
        (projTruthy cfg.project &&
          !(pyTrim row.currentProject != "" &&
            (pyIn (project_code_of cfg.project) (pyTrim row.currentProject) ||
             pyIn (pyLower (project_code_of cfg.project))
               (pyLower (pyTrim row.currentProjectText))))) &&
        (pyTrim row.currentEntry != "")⟩ := by
    intro plan hplan
    rw [pass2RowPlan, hparse] at hplan
    simp only [List.headD_cons] at hplan
    rw [if_neg (by simp [hfri, hsat]), if_neg (fun hc => hc hwd)] at hplan
    simp only [hday, hmon] at hplan
    rw [if_neg (by simp [hvac, hsick]), if_neg (by simp [hent, hexit])] at hplan
    simp only [hfut, Bool.not_true, Bool.and_false, Bool.or_false,
      Bool.not_false, Bool.true_and] at hplan
    split at hplan
    · exact Option.noConfusion hplan
    · injection hplan with h2
      exact h2.symm
  refine ⟨?_, ?_, ?_, ?_⟩
  · intro plan hplan
    rw [hred plan hplan]
  · intro hempty plan hplan
    rw [hred plan hplan]
    simp [hempty]
  · intro hne hpt hpas
    rw [pass2RowPlan, hparse]
    simp only [List.headD_cons]
    rw [if_neg (by simp [hfri, hsat]), if_neg (fun hc => hc hwd)]
    simp only [hday, hmon]
    rw [if_neg (by simp [hvac, hsick]), if_neg (by simp [hent, hexit])]
    simp only [hfut, hpt, hpas, Bool.not_true, Bool.and_false, Bool.or_false,
      Bool.not_false, Bool.true_and, Bool.and_true]
    rw [if_neg (by simp)]
    simp [hne]
  · intro hss hmw habs hne hnee
    rw [rowActionPass1, hparse]
    simp only [List.headD_cons]
    rw [if_neg (by simp [hfri, hsat]), if_neg (fun hc => hc hwd)]
    simp only [hday]
    rw [if_neg hvac, if_neg hsick, if_pos hss]
    simp only [hmw]
    rw [if_neg habs, if_pos ⟨hne, hnee⟩]

/-- C6 witness: the future December 25 row that already has hours and the
wrong presence symbol gets no hour fill but does get the project fill and
the pass-1 symbol correction to remote ("15"). -/
theorem c6_future_day_amended_witness :
    pass2RowPlan c6Cfg c6Today c6RowWithHours = some ⟨false, true⟩ ∧
    rowActionPass1 c6Cfg c6RowWithHours =
      some (GridAction.setSymbol 17 "15" false false) := by
  have h := c6_future_day_amended c6Cfg c6Today c6RowWithHours "25/12" "Thu"
    25 12 ⟨2025, 12, 25⟩ (by decide) (by decide) (by decide) (by decide)
    (by decide) (by decide) (by decide) (by decide) (by decide) (by decide)
    (by decide)
  constructor
  · exact h.2.2.1 (by decide) (by decide) (by decide)
  · rw [h.2.2.2 (by decide) (by decide) (by decide) (by decide) (by decide)]
    decide

/-- C6 counterexample: December 25 is strictly after "today" (December 10),
the desired project is set and the row's project is empty (mismatched),
yet pass 2 plans neither an hour fill nor a project fill for the row —
refuting the claim that such a row receives project corrections. -/
theorem c6_future_project_not_filled :
    pyDateGt ⟨2025, 12, 25⟩ c6Today = true ∧
    projTruthy c6Cfg.project = true ∧
    pyTrim c6Row.currentProject = "" ∧
    pass2RowPlan c6Cfg c6Today c6Row = some ⟨false, false⟩ := by
  decide

/-! ## Claim C7 -/

/-- A configuration with three sick days (8-10) and a certificate file,
triggering the symbol-6 branch with the upload step. -/
def c7Cfg : FillConfig :=
  { entry_time := "09:00", exit_time := "18:00",
    project := some "12086 - AGUR IC", present_weekdays := ∅,
    present_dates := ∅, vacation_days := ∅, sick_days := {8, 9, 10},
    sick_file := some "cert.pdf",
    workdays := [⟨2025, 12, 8⟩, ⟨2025, 12, 9⟩, ⟨2025, 12, 25⟩] }

/-- The December 8 row still showing the remote symbol "15". -/
def c7Row : Row :=
  { rowIndex := 3, dateText := "08/12 Mon", hasEntryInput := true,
    hasExitInput := true, currentEntry := "", currentExit := "",
    hasProjectInput := true, currentProject := "", currentProjectText := "",
    hasSymbolSelect := true, symbolSelectId := some "sel3",
    currentSymbol := "15" }

/-- `c7Cfg` with the sick days replaced by one vacation day, exercising the
rescan scan. -/
def c7VacCfg : FillConfig :=
  { c7Cfg with vacation_days := {8}, sick_days := ∅, sick_file := none }

/-- C7 (amended): each scan performs at most one state-changing action —
its result is exactly the FIRST row-action candidate of the row list just
read — and the acted row belongs to that freshly read list; no
pre-postback row identifier is used after a postback, with one exception:
the sick-certificate upload action (3-plus sick days with an attachment),
which locates the upload control by the pre-postback row index after the
symbol-change postback.  Rescan actions never carry the upload step, so
they never use a stale identifier. -/
theorem c7_scan_freshness_amended (cfg : FillConfig) (rows : List Row)
    (r : Row) (a : GridAction) :
    (pass1Scan cfg rows = some (r, a) →
      r ∈ rows ∧ rowActionPass1 cfg r = some a ∧
        (isUploadAction a = false → hasStaleUse a = false)) ∧
    (rescanScan cfg rows = some (r, a) →
      r ∈ rows ∧ rowActionRescan cfg r = some a ∧ hasStaleUse a = false) ∧
    pass1Scan cfg rows =
      (rows.filterMap
        (fun q => (rowActionPass1 cfg q).map (fun b => (q, b)))).head? ∧
    rescanScan cfg rows =
      (rows.filterMap
        (fun q => (rowActionRescan cfg q).map (fun b => (q, b)))).head? := by
  refine ⟨?_, ?_, firstAction_eq_head _ _, firstAction_eq_head _ _⟩
  · intro h
    obtain ⟨hm, hact⟩ := firstAction_mem h
    refine ⟨hm, hact, fun hu => ?_⟩
    rw [hasStaleUse_eq_upload]
    exact hu
  · intro h
    obtain ⟨hm, hact⟩ := firstAction_mem h
    refine ⟨hm, hact, ?_⟩
    rw [hasStaleUse_eq_upload]
    exact rowActionRescan_no_upload hact

/-- C7 witness: the freshness facts instantiated at the sick-day grid (for
pass 1) and at the vacation-day grid (for the rescan). -/
theorem c7_scan_freshness_amended_witness :
    (c7Row ∈ [c7Row] ∧
      rowActionPass1 c7Cfg c7Row = some (GridAction.setSymbol 3 "6" true true) ∧
      (isUploadAction (GridAction.setSymbol 3 "6" true true) = false →
        hasStaleUse (GridAction.setSymbol 3 "6" true true) = false)) ∧
    (c7Row ∈ [c7Row] ∧
      rowActionRescan c7VacCfg c7Row =
        some (GridAction.setSymbol 3 "2" true false) ∧
      hasStaleUse (GridAction.setSymbol 3 "2" true false) = false) := by
  constructor
  · exact (c7_scan_freshness_amended c7Cfg [c7Row] c7Row
      (GridAction.setSymbol 3 "6" true true)).1 (by decide)
  · exact (c7_scan_freshness_amended c7VacCfg [c7Row] c7Row
      (GridAction.setSymbol 3 "2" true false)).2.1 (by decide)

/-- C7 counterexample: with 3 sick days and a certificate file, the pass-1
scan's chosen action carries the upload step, whose page interaction uses
the pre-postback row index after the symbol-change postback — the claimed
"no stale identifier" invariant fails on this action. -/
theorem c7_sick_upload_stale_index :
    pass1Scan c7Cfg [c7Row] = some (c7Row, GridAction.setSymbol 3 "6" true true) ∧
    hasStaleUse (GridAction.setSymbol 3 "6" true true) = true := by
  decide

/-! ## Claim C8 -/

/-- The sick-days configuration used for the classification half of C8
(three sick days, certificate present). -/
def c8Cfg : FillConfig :=
  { entry_time := "09:00", exit_time := "18:00",
    project := some "12086 - AGUR IC", present_weekdays := ∅,
    present_dates := ∅, vacation_days := ∅, sick_days := {8, 9, 10},
    sick_file := some "cert.pdf",
    workdays := [⟨2025, 12, 8⟩, ⟨2025, 12, 9⟩, ⟨2025, 12, 25⟩] }

/-- The December 8 sick-day row, currently on the remote symbol. -/
def c8Row : Row :=
  { rowIndex := 3, dateText := "08/12 Mon", hasEntryInput := true,
    hasExitInput := true, currentEntry := "", currentExit := "",
    hasProjectInput := true, currentProject := "", currentProjectText := "",
    hasSymbolSelect := true, symbolSelectId := some "sel3",
    currentSymbol := "15" }

/-- C8: with more than 2 sick days and no `--sick-file`, the CLI gate fails
with the missing-attachment error before any browser action; with at most
2 sick days that error never fires; the sick symbol is "5" (declaration)
for at most 2 days and "6" (sick) for 3 or more, depending only on the
size of the whole set; and a sick-day row is set to exactly that symbol by
both the pass-1 scan (with the upload step exactly when the symbol is "6"
and a file is configured) and the rescan. -/
theorem c8_sick_threshold (opts : List (String × String))
    (pres sickSet : Finset Nat) (cfg : FillConfig) (row : Row)
    (ddmm dn : String) (day : Nat)
    (hacc : opts.find? (fun q => !fillerAcceptsOption q.1) = none)
    (hpres : parseDayRangesOpt (lookOpt opts "--present-dates") = some pres)
    (hsick : parseDayRangesOpt (lookOpt opts "--sick-days") = some sickSet)
    (hparse : pySplit row.dateText " " = [ddmm, dn])
    (hfri : dn ≠ "Fri") (hsat : dn ≠ "Sat")
    (hwd : ddmm ∈ workday_dates cfg)
    (hday : dayNumOf ddmm = some day)
    (hvac : day ∉ cfg.vacation_days) (hsickday : day ∈ cfg.sick_days)
    (hsel : row.hasSymbolSelect = true)
    (hselid : row.symbolSelectId.isSome = true)
    (hnc : ¬(row.currentSymbol = sickSymbolOf cfg ∧ rowHasHours row = false)) :
    (2 < sickSet.card → lookOpt opts "--sick-file" = none →
      filler_gate opts = GateOutcome.sickFileError) ∧
    (sickSet.card ≤ 2 → filler_gate opts ≠ GateOutcome.sickFileError) ∧
    (cfg.sick_days.card ≤ 2 → sickSymbolOf cfg = "5") ∧
    (2 < cfg.sick_days.card → sickSymbolOf cfg = "6") ∧
    rowActionPass1 cfg row = some (.setSymbol row.rowIndex (sickSymbolOf cfg)
      true (sickSymbolOf cfg == "6" && cfg.sick_file.isSome)) ∧
    rowActionRescan cfg row =
      some (.setSymbol row.rowIndex (sickSymbolOf cfg) true false) := by
  refine ⟨?_, ?_, ?_, ?_, ?_, ?_⟩
  · intro hcard hfile
    simp only [filler_gate, hacc, hpres, hsick, hfile]
    rw [if_pos (by simp [sick_file_missing, hcard])]
  · intro hcard
    simp only [filler_gate, hacc, hpres, hsick]
    rw [if_neg (by simp [sick_file_missing, Nat.not_lt.mpr hcard])]
    split
    · intro hc
      exact GateOutcome.noConfusion hc
    · split
      · intro hc
        exact GateOutcome.noConfusion hc
      · intro hc
        exact GateOutcome.noConfusion hc
  · intro hcard
    rw [sickSymbolOf, if_pos hcard]
  · intro hcard
    rw [sickSymbolOf, if_neg (Nat.not_le.mpr hcard)]
  · rw [rowActionPass1, hparse]
    simp only [List.headD_cons]
    rw [if_neg (by simp [hfri, hsat]), if_neg (fun hc => hc hwd)]
    simp only [hday]
    rw [if_neg hvac, if_pos hsickday, if_neg hnc, if_pos ⟨hsel, hselid⟩]
  · rw [rowActionRescan, hparse]
    simp only [List.headD_cons]
    rw [if_neg (by simp [hfri, hsat]), if_neg (fun hc => hc hwd)]
    simp only [hday]
    rw [if_neg hvac, if_pos hsickday, if_neg hnc, if_pos ⟨hsel, hselid⟩]

/-- C8 witness: with sick days 8-10 and no sick-file option, the gate fails
with the missing-attachment error; with the file configured, both scans
set the December 8 row to "6" (sick), pass 1 with the upload step. -/
theorem c8_sick_threshold_witness :
    filler_gate [("--sick-days", "8-10")] = GateOutcome.sickFileError ∧
    sickSymbolOf c8Cfg = "6" ∧
    rowActionPass1 c8Cfg c8Row = some (GridAction.setSymbol 3 "6" true true) ∧
    rowActionRescan c8Cfg c8Row =
      some (GridAction.setSymbol 3 "6" true false) := by
  have h := c8_sick_threshold [("--sick-days", "8-10")] ∅ {10, 9, 8} c8Cfg
    c8Row "08/12" "Mon" 8 (by decide) rfl rfl (by decide)
    (by decide) (by decide) (by decide) (by decide) (by decide) (by decide)
    (by decide) (by decide) (by decide)
  refine ⟨h.1 (by decide) (by decide), h.2.2.2.1 (by decide), ?_, ?_⟩
  · rw [h.2.2.2.2.1]
    decide
  · rw [h.2.2.2.2.2]
    decide

/-! ## Claim C10 -/

/-- C10: a range token `a-b` with `a > b` parses to an empty contribution —
`range(a, b + 1)` is empty — with no parse error; in particular "12-8"
yields no days, both alone and inside a larger option value. -/
theorem c10_reversed_range_empty :
    (∀ a b : Nat, b < a → rangeContribution a b = []) ∧
    parseToken "12-8" = some [] ∧
    parse_day_ranges "12-8" = some (∅ : Finset Nat) ∧
    parse_day_ranges "5,12-8" = some ({5} : Finset Nat) := by
  refine ⟨?_, by decide, by decide, by decide⟩
  intro a b hba
  unfold rangeContribution
  have hz : b + 1 - a = 0 := by omega
  rw [hz]
  rfl

/-- C10 witness: the reversed range 12-8 contributes no days. -/
theorem c10_reversed_range_empty_witness : rangeContribution 12 8 = [] :=
  c10_reversed_range_empty.1 12 8 (by decide)

end Hilan
